import Mathlib

/-!
Shallow embedding of the fire-monitoring dashboard orchestrator
(`src/app/page.tsx` and the backend-integrated page variant): camera
registry, alert ledger, simulated fire-window evaluation, backend scan
application, health probing, and the alert resolution / response commands.
Machine floats (confidence values, coordinates) are modelled as `Rat`,
wall-clock timestamps (`Date.now()`) and the `Math.random()` draw as
oracle parameters supplied per event.
-/

namespace FireWatch

/-- Camera status: the `"normal" | "fire"` union of the source. -/
inductive CamStatus
  | normal
  | fire
deriving DecidableEq

/-- Alert status: the `"active" | "resolved"` union of the source. -/
inductive AlertStatus
  | active
  | resolved
deriving DecidableEq

/-- The `FireAlert` interface of the source. `timestamp` is the wall-clock
value (`new Date()` / `Date.now()`), modelled as a `Nat`. -/
structure FireAlert where
  id : String
  location : String
  address : String
  timestamp : Nat
  confidence : Rat
  coordinates : Rat × Rat
  cameraId : String
  status : AlertStatus
deriving DecidableEq

/-- The `SimulatedCamera` interface of the source. -/
structure SimulatedCamera where
  id : String
  name : String
  location : String
  coordinates : Rat × Rat
  status : CamStatus
  confidence : Rat
  imageUrl : String
  fireEventTimes : List Int
deriving DecidableEq

/-- The React state of the `Home` component: `alerts`, `cameras`,
`selectedAlert`, `responsesSent`, `simulationTime`, `backendConnected`,
`useBackend`. -/
structure HomeState where
  alerts : List FireAlert
  cameras : List SimulatedCamera
  selectedAlert : Option FireAlert
  responsesSent : Nat
  simulationTime : Int
  backendConnected : Bool
  useBackend : Bool
deriving DecidableEq

/-- Source: `camera.fireEventTimes.some((fireTime) =>
Math.abs(simulationTime - fireTime) < 1500)`. -/
def isFireTimeWindow (simulationTime : Int) (camera : SimulatedCamera) : Bool :=
  camera.fireEventTimes.any (fun fireTime => decide ((simulationTime - fireTime).natAbs < 1500))

/-- Source: `alerts.some((a) => a.cameraId === camera.id && a.status === "active")`. -/
def hasExistingAlert (alerts : List FireAlert) (cameraId : String) : Bool :=
  alerts.any (fun a => decide (a.cameraId = cameraId ∧ a.status = AlertStatus.active))

/-- Source: `const confidence = 0.8 + Math.random() * 0.2`, with `r` the
`Math.random()` draw. -/
def drawConfidence (r : Rat) : Rat :=
  8 / 10 + r * (2 / 10)

/-- Source: the `newAlert` object literal — `id` is
`Date.now().toString() + camera.id`, metadata is snapshotted from the camera. -/
def mkFireAlert (now : Nat) (camera : SimulatedCamera) (confidence : Rat) : FireAlert :=
  { id := toString now ++ camera.id
    location := camera.name
    address := camera.location
    timestamp := now
    confidence := confidence
    coordinates := camera.coordinates
    cameraId := camera.id
    status := AlertStatus.active }

/-- Source: `setCameras((prev) => prev.map((c) => (c.id === camera.id ?
{ ...c, status: "fire", confidence } : c)))`. -/
def setCameraFire (cameraId : String) (confidence : Rat)
    (cameras : List SimulatedCamera) : List SimulatedCamera :=
  cameras.map (fun c =>
    if c.id = cameraId then { c with status := CamStatus.fire, confidence := confidence } else c)

/-- One iteration of the `cameras.forEach` body of the fire-window effect.
Guards (`isFireTimeWindow`, `camera.status === "normal"`, `hasExistingAlert`)
read the render snapshot `snap`; the functional `setCameras`/`setAlerts`
updates apply to the accumulated state `st`. -/
def passStep (snap : HomeState) (now : Nat) (rng : String → Rat)
    (st : HomeState) (camera : SimulatedCamera) : HomeState :=
  if isFireTimeWindow snap.simulationTime camera && decide (camera.status = CamStatus.normal) then
    if hasExistingAlert snap.alerts camera.id then st
    else
      let confidence := drawConfidence (rng camera.id)
      { st with
        cameras := setCameraFire camera.id confidence st.cameras
        alerts := mkFireAlert now camera confidence :: st.alerts }
  else st

/-- The whole `cameras.forEach (...)` simulation-fallback body of the
fire-window effect, folded over the snapshot's camera list. -/
def simulationFallbackPass (now : Nat) (rng : String → Rat) (snap : HomeState) : HomeState :=
  snap.cameras.foldl (passStep snap now rng) snap

/-- The fire-window effect: runs the simulation fallback only when
`!backendConnected || !useBackend`. -/
def fireWindowStep (now : Nat) (rng : String → Rat) (st : HomeState) : HomeState :=
  if !st.backendConnected || !st.useBackend then simulationFallbackPass now rng st else st

/-- The mapper of `setAlerts` in `handleResolveAlert`:
`(alert) => (alert.id === alertId ? { ...alert, status: "resolved" } : alert)`. -/
def resolveAlertEntry (alertId : String) (a : FireAlert) : FireAlert :=
  if a.id = alertId then { a with status := AlertStatus.resolved } else a

/-- The mapper of `setCameras` in `handleResolveAlert`:
`(camera) => (camera.status === "fire" ? { ...camera, status: "normal", confidence: 0 } : camera)`. -/
def resolveCameraEntry (c : SimulatedCamera) : SimulatedCamera :=
  if c.status = CamStatus.fire then { c with status := CamStatus.normal, confidence := 0 } else c

/-- Source `handleResolveAlert`: marks matching ledger entries resolved,
resets every fire camera, clears the selected alert. -/
def handleResolveAlert (st : HomeState) (alertId : String) : HomeState :=
  { st with
    alerts := st.alerts.map (resolveAlertEntry alertId)
    cameras := st.cameras.map resolveCameraEntry
    selectedAlert := none }

/-- Source `handleRequestResponse`: `setResponsesSent((prev) => prev + 1)`
then `handleResolveAlert(alert.id)`. -/
def handleRequestResponse (st : HomeState) (alert : FireAlert) : HomeState :=
  handleResolveAlert { st with responsesSent := st.responsesSent + 1 } alert.id

/-- One entry of the `/scan` response: `{camera_id, status, confidence}`. -/
structure ScanCamera where
  camera_id : String
  status : CamStatus
  confidence : Rat
deriving DecidableEq

/-- The `setCameras` update of `performBackendScan`: each camera present in
the response is overwritten with the reported status/confidence, cameras
absent from the response are returned unchanged. -/
def applyScanResult (result : List ScanCamera) (cameras : List SimulatedCamera) :
    List SimulatedCamera :=
  cameras.map (fun camera =>
    match result.find? (fun c => decide (c.camera_id = camera.id)) with
    | some backendStatus =>
        { camera with status := backendStatus.status, confidence := backendStatus.confidence }
    | none => camera)

/-- Outcome oracle for one `scanAll()` call: a successful response, a falsy
result (the `if (result)` guard fails), or a thrown error. -/
inductive ScanOutcome
  | ok (cameras : List ScanCamera)
  | nullResult
  | err

/-- Source `performBackendScan`: when not connected it sets
`useBackend = false` and returns; on a successful scan it applies the
result; on a caught error it sets `useBackend = false`. -/
def performBackendScan (st : HomeState) (outcome : ScanOutcome) : HomeState :=
  if !st.backendConnected then { st with useBackend := false }
  else
    match outcome with
    | ScanOutcome.ok result => { st with cameras := applyScanResult result st.cameras }
    | ScanOutcome.nullResult => st
    | ScanOutcome.err => { st with useBackend := false }

/-- Outcome oracle for one `detectFire` call. -/
inductive DetectOutcome
  | ok (accuracy : Rat)
  | nullResult
  | err

/-- Source `handleVideoViewerOpen`: in backend mode a successful detection
replaces the selected alert's confidence; a falsy result or a caught error
leaves the state unchanged (the catch only logs); outside backend mode the
alert is simply selected. -/
def handleVideoViewerOpen (st : HomeState) (oa : Option FireAlert)
    (outcome : DetectOutcome) : HomeState :=
  match oa with
  | none => st
  | some alert =>
    if st.backendConnected && st.useBackend then
      match st.cameras.find? (fun c => decide (c.id = alert.cameraId)) with
      | some _ =>
        match outcome with
        | DetectOutcome.ok accuracy =>
            { st with selectedAlert := some { alert with confidence := accuracy } }
        | DetectOutcome.nullResult => st
        | DetectOutcome.err => st
      | none => st
    else { st with selectedAlert := some alert }

/-- Source `checkBackend` body: `setBackendConnected(isHealthy)`. -/
def checkBackendProbe (st : HomeState) (isHealthy : Bool) : HomeState :=
  { st with backendConnected := isHealthy }

/-- Source simulation clock effect: `setSimulationTime((prev) => prev + 1000)`. -/
def clockTick (st : HomeState) : HomeState :=
  { st with simulationTime := st.simulationTime + 1000 }

/-- Source `onClose={() => setSelectedAlert(null)}`. -/
def closeViewer (st : HomeState) : HomeState :=
  { st with selectedAlert := none }

/-- First entry of `initialCameras` in the source. -/
def cam1 : SimulatedCamera :=
  { id := "cam-1", name := "Downtown Block A", location := "Binan City"
    coordinates := (mkRat 407505 10000, mkRat (-739737) 10000), status := CamStatus.normal
    confidence := 0, imageUrl := "/city-street-downtown.jpg"
    fireEventTimes := [15000, 45000] }

/-- Second entry of `initialCameras` in the source. -/
def cam2 : SimulatedCamera :=
  { id := "cam-2", name := "Warehouse District", location := "Binan City"
    coordinates := (mkRat 40745 1000, mkRat (-73968) 1000), status := CamStatus.normal
    confidence := 0, imageUrl := "/warehouse-industrial-area.jpg"
    fireEventTimes := [25000, 55000] }

/-- Third entry of `initialCameras` in the source. -/
def cam3 : SimulatedCamera :=
  { id := "cam-3", name := "Residential Zone B", location := "Binan City"
    coordinates := (mkRat 40758 1000, mkRat (-739855) 10000), status := CamStatus.normal
    confidence := 0, imageUrl := "/residential-street.jpg"
    fireEventTimes := [35000, 65000] }

/-- Fourth entry of `initialCameras` in the source. -/
def cam4 : SimulatedCamera :=
  { id := "cam-4", name := "Park Avenue", location := "Binan City"
    coordinates := (mkRat 407614 10000, mkRat (-739776) 10000), status := CamStatus.normal
    confidence := 0, imageUrl := "/park-urban.jpg"
    fireEventTimes := [20000, 50000] }

/-- Fifth entry of `initialCameras` in the source. -/
def cam5 : SimulatedCamera :=
  { id := "cam-5", name := "Hudson Valley", location := "Binan City"
    coordinates := (mkRat 4073 100, mkRat (-74006) 1000), status := CamStatus.normal
    confidence := 0, imageUrl := "/harbor-waterfront.jpg"
    fireEventTimes := [40000, 70000] }

/-- The `initialCameras` array installed by the mount effect. -/
def initialCameras : List SimulatedCamera :=
  [cam1, cam2, cam3, cam4, cam5]

/-- The component's state after mount: empty ledger, the five initial
cameras, nothing selected, counter 0, simulation time 0,
`backendConnected = false`, `useBackend = true`. -/
def initState : HomeState :=
  { alerts := []
    cameras := initialCameras
    selectedAlert := none
    responsesSent := 0
    simulationTime := 0
    backendConnected := false
    useBackend := true }

/-- One serialized transition of the orchestrator: a clock tick, a run of
the fire-window effect, a health-probe completion, a scan completion, a
viewer open (detect completion), an alert resolution, a response request,
or closing the viewer. -/
inductive Event
  | tick
  | fireWindow (now : Nat) (rng : String → Rat)
  | probe (isHealthy : Bool)
  | scan (outcome : ScanOutcome)
  | openViewer (oa : Option FireAlert) (outcome : DetectOutcome)
  | resolve (alertId : String)
  | request (alert : FireAlert)
  | close

/-- The serialized small-step semantics over `HomeState`. -/
def step (st : HomeState) : Event → HomeState
  | Event.tick => clockTick st
  | Event.fireWindow now rng => fireWindowStep now rng st
  | Event.probe isHealthy => checkBackendProbe st isHealthy
  | Event.scan outcome => performBackendScan st outcome
  | Event.openViewer oa outcome => handleVideoViewerOpen st oa outcome
  | Event.resolve alertId => handleResolveAlert st alertId
  | Event.request alert => handleRequestResponse st alert
  | Event.close => closeViewer st

/-- Run a trace of events from the post-mount state. -/
def run (tr : List Event) : HomeState :=
  tr.foldl step initState

/-- Evaluation is in simulation-fallback mode exactly when
`!backendConnected || !useBackend` (the guard of the fire-window effect). -/
def simFallbackActive (st : HomeState) : Bool :=
  !st.backendConnected || !st.useBackend

/-- Checks the spec's camera/alert biconditional on one state: every
camera has `status = fire` iff an active alert with its `cameraId` exists. -/
def camAlertIff (st : HomeState) : Bool :=
  st.cameras.all (fun c => decide (c.status = CamStatus.fire) == hasExistingAlert st.alerts c.id)

/-- The weaker, provable direction: every fire camera has a matching
active alert in the ledger. -/
def fireImpliesActive (st : HomeState) : Prop :=
  ∀ c ∈ st.cameras, c.status = CamStatus.fire →
    ∃ a ∈ st.alerts, a.cameraId = c.id ∧ a.status = AlertStatus.active

/-- Number of active alerts in the ledger referencing a given camera. -/
def countActive (alerts : List FireAlert) (cameraId : String) : Nat :=
  (alerts.filter (fun a => decide (a.cameraId = cameraId ∧ a.status = AlertStatus.active))).length

/-- Recognizes backend-scan events. -/
def isScanEvent : Event → Bool
  | Event.scan _ => true
  | _ => false

/-- The two-part ledger invariant carried through traces: camera ids stay
duplicate-free, and every camera has at most one active alert. -/
def LedgerInv (st : HomeState) : Prop :=
  ((st.cameras.map (fun c => c.id)).Nodup) ∧ ∀ cid, countActive st.alerts cid ≤ 1

/-- Fixed zero oracle for the `Math.random()` draw, used in concrete runs. -/
def zeroRng : String → Rat := fun _ => 0

/-- Concrete witness alert: the alert the simulation creates for `cam1` at
wall-clock 1 with confidence 1. -/
def alertW : FireAlert := mkFireAlert 1 cam1 1

/-- Concrete camera in fire status, for witness states. -/
def fireCam1 : SimulatedCamera := { cam1 with status := CamStatus.fire, confidence := 1 }

/-- Concrete witness state: one fire camera and its active alert. -/
def stW : HomeState := { initState with alerts := [alertW], cameras := [fireCam1] }

/-- Concrete witness state with the backend reachable. -/
def stScan : HomeState := { initState with backendConnected := true }

/-- Witness camera with a single scheduled window at 15000ms. -/
def camA : SimulatedCamera := { cam1 with fireEventTimes := [15000] }

/-- Witness camera with a single scheduled window at 15800ms. -/
def camB : SimulatedCamera := { cam2 with fireEventTimes := [15800] }

/-- Witness state holding `camA` and `camB` at simulation time 15000ms,
inside both cameras' 1500ms tolerance windows. -/
def stAB : HomeState := { initState with cameras := [camA, camB], simulationTime := 15000 }

/-- Trace exhibiting the scan-application hole in the biconditional
invariant: connect the backend, then apply a scan reporting `cam-1` on fire. -/
def scanFireTrace : List Event :=
  [Event.probe true, Event.scan (ScanOutcome.ok [⟨"cam-1", CamStatus.fire, 9 / 10⟩])]

/-- Trace exhibiting the resolution hole in the biconditional invariant:
let `cam-1` and `cam-4` both catch fire, then resolve only `cam-1`'s alert. -/
def resolveBreadthTrace : List Event :=
  List.replicate 15 Event.tick ++ [Event.fireWindow 1 zeroRng] ++
    List.replicate 5 Event.tick ++ [Event.fireWindow 2 zeroRng, Event.resolve "1cam-1"]

/-- Scan-free trace reaching a state with a fire camera, for witnesses. -/
def fireTrace : List Event :=
  List.replicate 15 Event.tick ++ [Event.fireWindow 1 zeroRng]

section Helpers

/-- Any property preserved by every step of a fold is preserved by the fold. -/
theorem foldl_preserve {α β : Type} (f : β → α → β) (P : β → Prop)
    (hf : ∀ b a, P b → P (f b a)) : ∀ (l : List α) (b : β), P b → P (l.foldl f b) := by
  intro l
  induction l with
  | nil => intro b hb; exact hb
  | cons a l ih => intro b hb; exact ih _ (hf b a hb)

/-- One iteration of the fire-window body either leaves the accumulated
state unchanged, or — when the snapshot has no active alert for the camera —
marks the camera fire and prepends the new alert. -/
theorem passStep_cases (snap : HomeState) (now : Nat) (rng : String → Rat)
    (st : HomeState) (camera : SimulatedCamera) :
    passStep snap now rng st camera = st ∨
      (hasExistingAlert snap.alerts camera.id = false ∧
        passStep snap now rng st camera =
          { st with
            cameras := setCameraFire camera.id (drawConfidence (rng camera.id)) st.cameras
            alerts := mkFireAlert now camera (drawConfidence (rng camera.id)) :: st.alerts }) := by
  unfold passStep
  split
  · split
    · left; rfl
    · rename_i hno
      right
      exact ⟨Bool.eq_false_iff.mpr hno, rfl⟩
  · left; rfl

/-- The fire-window body never touches the mode flags. -/
theorem passStep_useBackend (snap : HomeState) (now : Nat) (rng : String → Rat)
    (st : HomeState) (camera : SimulatedCamera) :
    (passStep snap now rng st camera).useBackend = st.useBackend := by
  rcases passStep_cases snap now rng st camera with h | ⟨_, h⟩ <;> rw [h]

/-- When all three guards clear — the camera is inside a fire window, still
normal in the snapshot, and the snapshot ledger has no active alert for it —
the fire-window body marks it fire and prepends the new alert. -/
theorem passStep_creates (snap : HomeState) (now : Nat) (rng : String → Rat)
    (st : HomeState) (camera : SimulatedCamera)
    (hw : isFireTimeWindow snap.simulationTime camera = true)
    (hn : camera.status = CamStatus.normal)
    (ha : hasExistingAlert snap.alerts camera.id = false) :
    passStep snap now rng st camera =
      { st with
        cameras := setCameraFire camera.id (drawConfidence (rng camera.id)) st.cameras
        alerts := mkFireAlert now camera (drawConfidence (rng camera.id)) :: st.alerts } := by
  unfold passStep
  rw [hw, hn, ha]
  rfl

/-- Opening the viewer never changes the camera registry. -/
theorem handleVideoViewerOpen_cameras (st : HomeState) (oa : Option FireAlert)
    (outcome : DetectOutcome) : (handleVideoViewerOpen st oa outcome).cameras = st.cameras := by
  unfold handleVideoViewerOpen
  cases oa with
  | none => rfl
  | some alert =>
    dsimp only
    split
    · split
      · cases outcome <;> rfl
      · rfl
    · rfl

/-- Opening the viewer never changes the alert ledger. -/
theorem handleVideoViewerOpen_alerts (st : HomeState) (oa : Option FireAlert)
    (outcome : DetectOutcome) : (handleVideoViewerOpen st oa outcome).alerts = st.alerts := by
  unfold handleVideoViewerOpen
  cases oa with
  | none => rfl
  | some alert =>
    dsimp only
    split
    · split
      · cases outcome <;> rfl
      · rfl
    · rfl

/-- Opening the viewer never changes the mode flags. -/
theorem handleVideoViewerOpen_useBackend (st : HomeState) (oa : Option FireAlert)
    (outcome : DetectOutcome) : (handleVideoViewerOpen st oa outcome).useBackend = st.useBackend := by
  unfold handleVideoViewerOpen
  cases oa with
  | none => rfl
  | some alert =>
    dsimp only
    split
    · split
      · cases outcome <;> rfl
      · rfl
    · rfl

/-- A backend scan never changes the alert ledger. -/
theorem performBackendScan_alerts (st : HomeState) (outcome : ScanOutcome) :
    (performBackendScan st outcome).alerts = st.alerts := by
  unfold performBackendScan
  split
  · rfl
  · cases outcome <;> rfl

/-- Resolving an entry keeps its `cameraId`. -/
theorem resolveAlertEntry_cameraId (alertId : String) (a : FireAlert) :
    (resolveAlertEntry alertId a).cameraId = a.cameraId := by
  unfold resolveAlertEntry
  split <;> rfl

/-- Resolving an entry that is already resolved is the identity. -/
theorem resolveAlertEntry_of_resolved (alertId : String) (a : FireAlert)
    (h : a.status = AlertStatus.resolved) : resolveAlertEntry alertId a = a := by
  unfold resolveAlertEntry
  split
  · rw [← h]
  · rfl

/-- Resolving an entry with a different id is the identity. -/
theorem resolveAlertEntry_of_ne (alertId : String) (a : FireAlert)
    (h : a.id ≠ alertId) : resolveAlertEntry alertId a = a := by
  unfold resolveAlertEntry
  rw [if_neg h]

/-- The camera mapper of the resolution command always yields a normal camera. -/
theorem resolveCameraEntry_status (c : SimulatedCamera) :
    (resolveCameraEntry c).status = CamStatus.normal := by
  unfold resolveCameraEntry
  split
  · rfl
  · rename_i h
    cases hs : c.status
    · rfl
    · exact absurd hs h

/-- The camera mapper of the resolution command maps a fire camera to the
same camera with status normal and confidence 0. -/
theorem resolveCameraEntry_of_fire (c : SimulatedCamera) (h : c.status = CamStatus.fire) :
    resolveCameraEntry c = { c with status := CamStatus.normal, confidence := 0 } := by
  unfold resolveCameraEntry
  rw [if_pos h]

/-- Every fire camera of the input appears reset (normal, confidence 0) in
the registry produced by the resolution command. -/
theorem mem_resolved_cameras (st : HomeState) (alertId : String) (c : SimulatedCamera)
    (hc : c ∈ st.cameras) (hfire : c.status = CamStatus.fire) :
    { c with status := CamStatus.normal, confidence := 0 } ∈
      (handleResolveAlert st alertId).cameras := by
  have hm := List.mem_map_of_mem resolveCameraEntry hc
  rw [resolveCameraEntry_of_fire c hfire] at hm
  exact hm

/-- Empty ledger has no active alerts. -/
theorem countActive_nil (cameraId : String) : countActive [] cameraId = 0 := rfl

/-- Unfolding `countActive` over a cons cell. -/
theorem countActive_cons (a : FireAlert) (l : List FireAlert) (cameraId : String) :
    countActive (a :: l) cameraId =
      (if a.cameraId = cameraId ∧ a.status = AlertStatus.active then 1 else 0) +
        countActive l cameraId := by
  by_cases hP : a.cameraId = cameraId ∧ a.status = AlertStatus.active
  · simp [countActive, List.filter_cons, hP, Nat.add_comm]
  · simp [countActive, List.filter_cons, hP]

/-- When the duplicate guard reports no active alert for a camera, the
ledger indeed holds zero active alerts for it. -/
theorem countActive_eq_zero_of_no_existing (l : List FireAlert) (cameraId : String)
    (h : hasExistingAlert l cameraId = false) : countActive l cameraId = 0 := by
  induction l with
  | nil => rfl
  | cons a l ih =>
    simp only [hasExistingAlert, List.any_cons, Bool.or_eq_false_iff] at h
    rw [countActive_cons]
    have h1 : ¬(a.cameraId = cameraId ∧ a.status = AlertStatus.active) := by
      simpa using h.1
    rw [if_neg h1, Nat.zero_add]
    exact ih h.2

/-- Resolution never increases the number of active alerts for any camera. -/
theorem countActive_map_resolve_le (alertId : String) (l : List FireAlert) (cameraId : String) :
    countActive (l.map (resolveAlertEntry alertId)) cameraId ≤ countActive l cameraId := by
  induction l with
  | nil => exact Nat.le_refl 0
  | cons a l ih =>
    rw [List.map_cons, countActive_cons, countActive_cons]
    refine Nat.add_le_add ?_ ih
    by_cases hid : a.id = alertId
    · have : resolveAlertEntry alertId a = { a with status := AlertStatus.resolved } := by
        unfold resolveAlertEntry
        rw [if_pos hid]
      have hc2 : ¬(({ a with status := AlertStatus.resolved } : FireAlert).cameraId = cameraId ∧
          ({ a with status := AlertStatus.resolved } : FireAlert).status = AlertStatus.active) :=
        fun hcc => (by decide : AlertStatus.resolved ≠ AlertStatus.active) hcc.2
      rw [this, if_neg hc2]
      exact Nat.zero_le _
    · rw [resolveAlertEntry_of_ne alertId a hid]

/-- Marking a camera on fire keeps the registry's id sequence. -/
theorem camIds_setCameraFire (cameraId : String) (confidence : Rat)
    (cameras : List SimulatedCamera) :
    (setCameraFire cameraId confidence cameras).map (fun c => c.id) =
      cameras.map (fun c => c.id) := by
  unfold setCameraFire
  rw [List.map_map]
  refine List.map_congr_left ?_
  intro c _
  simp only [Function.comp_apply]
  split <;> rfl

/-- Applying a scan result keeps the registry's id sequence. -/
theorem camIds_applyScanResult (result : List ScanCamera) (cameras : List SimulatedCamera) :
    (applyScanResult result cameras).map (fun c => c.id) = cameras.map (fun c => c.id) := by
  unfold applyScanResult
  rw [List.map_map]
  refine List.map_congr_left ?_
  intro c _
  simp only [Function.comp_apply]
  split <;> rfl

/-- The resolution command keeps the registry's id sequence. -/
theorem camIds_resolveCameras (cameras : List SimulatedCamera) :
    (cameras.map resolveCameraEntry).map (fun c => c.id) = cameras.map (fun c => c.id) := by
  rw [List.map_map]
  refine List.map_congr_left ?_
  intro c _
  simp only [Function.comp_apply]
  unfold resolveCameraEntry
  split <;> rfl

/-- Every orchestrator transition keeps the registry's id sequence. -/
theorem camIds_step (st : HomeState) (e : Event) :
    ((step st e).cameras).map (fun c => c.id) = st.cameras.map (fun c => c.id) := by
  cases e with
  | tick => rfl
  | fireWindow now rng =>
    show (fireWindowStep now rng st).cameras.map (fun c => c.id) = _
    unfold fireWindowStep
    split
    · unfold simulationFallbackPass
      exact foldl_preserve (passStep st now rng)
        (fun s => s.cameras.map (fun c => c.id) = st.cameras.map (fun c => c.id))
        (fun b a hb => by
          rcases passStep_cases st now rng b a with h | ⟨_, h⟩
          · rw [h]; exact hb
          · rw [h]
            show (setCameraFire a.id _ b.cameras).map (fun c => c.id) = _
            rw [camIds_setCameraFire]
            exact hb)
        st.cameras st rfl
    · rfl
  | probe isHealthy => rfl
  | scan outcome =>
    show (performBackendScan st outcome).cameras.map (fun c => c.id) = _
    unfold performBackendScan
    split
    · rfl
    · cases outcome with
      | ok result => exact camIds_applyScanResult result st.cameras
      | nullResult => rfl
      | err => rfl
  | openViewer oa outcome =>
    show (handleVideoViewerOpen st oa outcome).cameras.map (fun c => c.id) = _
    rw [handleVideoViewerOpen_cameras]
  | resolve alertId => exact camIds_resolveCameras st.cameras
  | request alert => exact camIds_resolveCameras st.cameras
  | close => rfl

/-- Once the session flag `useBackend` is false, no transition sets it back. -/
theorem step_useBackend_false (st : HomeState) (e : Event) (h : st.useBackend = false) :
    (step st e).useBackend = false := by
  cases e with
  | tick => exact h
  | fireWindow now rng =>
    show (fireWindowStep now rng st).useBackend = false
    unfold fireWindowStep
    split
    · unfold simulationFallbackPass
      exact foldl_preserve (passStep st now rng) (fun s => s.useBackend = false)
        (fun b a hb => by
          show (passStep st now rng b a).useBackend = false
          rw [passStep_useBackend]
          exact hb) st.cameras st h
    · exact h
  | probe isHealthy => exact h
  | scan outcome =>
    show (performBackendScan st outcome).useBackend = false
    unfold performBackendScan
    split
    · rfl
    · cases outcome with
      | ok result => exact h
      | nullResult => exact h
      | err => rfl
  | openViewer oa outcome =>
    show (handleVideoViewerOpen st oa outcome).useBackend = false
    rw [handleVideoViewerOpen_useBackend]
    exact h
  | resolve alertId => exact h
  | request alert => exact h
  | close => exact h

/-- One fire-window iteration preserves "every fire camera has a matching
active alert": a newly ignited camera gets its freshly prepended alert, and
pre-existing witnesses survive the prepend. -/
theorem fireImpliesActive_passStep (snap : HomeState) (now : Nat) (rng : String → Rat)
    (st : HomeState) (camera : SimulatedCamera) (h : fireImpliesActive st) :
    fireImpliesActive (passStep snap now rng st camera) := by
  rcases passStep_cases snap now rng st camera with heq | ⟨_, heq⟩
  · rw [heq]; exact h
  · rw [heq]
    intro c' hc' hfire
    show ∃ a ∈ mkFireAlert now camera (drawConfidence (rng camera.id)) :: st.alerts,
      a.cameraId = c'.id ∧ a.status = AlertStatus.active
    have hc'' : c' ∈ setCameraFire camera.id (drawConfidence (rng camera.id)) st.cameras := hc'
    unfold setCameraFire at hc''
    rcases List.mem_map.mp hc'' with ⟨c, hcmem, hceq⟩
    by_cases hid : c.id = camera.id
    · refine ⟨mkFireAlert now camera (drawConfidence (rng camera.id)),
        List.mem_cons_self _ _, ?_, rfl⟩
      rw [if_pos hid] at hceq
      rw [← hceq]
      show camera.id = c.id
      exact hid.symm
    · rw [if_neg hid] at hceq
      rw [← hceq] at hfire
      rcases h c hcmem hfire with ⟨a, hamem, haprops⟩
      rw [← hceq]
      exact ⟨a, List.mem_cons_of_mem _ hamem, haprops⟩

/-- Every transition except a backend-scan application preserves "every
fire camera has a matching active alert". -/
theorem fireImpliesActive_step (st : HomeState) (e : Event)
    (hns : isScanEvent e = false) (h : fireImpliesActive st) :
    fireImpliesActive (step st e) := by
  cases e with
  | tick => exact h
  | fireWindow now rng =>
    show fireImpliesActive (fireWindowStep now rng st)
    unfold fireWindowStep
    split
    · unfold simulationFallbackPass
      exact foldl_preserve (passStep st now rng) fireImpliesActive
        (fun b a hb => fireImpliesActive_passStep st now rng b a hb) st.cameras st h
    · exact h
  | probe isHealthy => exact h
  | scan outcome => exact absurd hns (by simp [isScanEvent])
  | openViewer oa outcome =>
    intro c hc hfire
    rw [show (step st (Event.openViewer oa outcome)).cameras = st.cameras from
      handleVideoViewerOpen_cameras st oa outcome] at hc
    rcases h c hc hfire with ⟨a, hamem, haprops⟩
    refine ⟨a, ?_, haprops⟩
    rw [show (step st (Event.openViewer oa outcome)).alerts = st.alerts from
      handleVideoViewerOpen_alerts st oa outcome]
    exact hamem
  | resolve alertId =>
    intro c hc hfire
    rcases List.mem_map.mp hc with ⟨c0, _, hceq⟩
    rw [← hceq, resolveCameraEntry_status] at hfire
    exact absurd hfire (by decide)
  | request alert =>
    intro c hc hfire
    rcases List.mem_map.mp hc with ⟨c0, _, hceq⟩
    rw [← hceq, resolveCameraEntry_status] at hfire
    exact absurd hfire (by decide)
  | close => exact h

/-- Folding the fire-window body over a duplicate-free camera list keeps at
most one active alert per camera, given that each still-to-fire camera the
snapshot guard clears really has no active alert in the accumulated ledger. -/
theorem pass_aux (snap : HomeState) (now : Nat) (rng : String → Rat) :
    ∀ (l : List SimulatedCamera) (st : HomeState),
      (∀ cid, countActive st.alerts cid ≤ 1) →
      (l.map (fun c => c.id)).Nodup →
      (∀ c ∈ l, hasExistingAlert snap.alerts c.id = false → countActive st.alerts c.id = 0) →
      ∀ cid, countActive ((l.foldl (passStep snap now rng) st).alerts) cid ≤ 1 := by
  intro l
  induction l with
  | nil => intro st h1 _ _ cid; exact h1 cid
  | cons camera l ih =>
    intro st h1 hnd h3 cid
    rw [List.foldl_cons]
    have hndc : ¬(camera.id ∈ l.map (fun c => c.id)) ∧ (l.map (fun c => c.id)).Nodup :=
      List.nodup_cons.mp (by simpa using hnd)
    rcases passStep_cases snap now rng st camera with heq | ⟨hnoalert, heq⟩
    · refine ih _ ?_ hndc.2 ?_ cid
      · rw [heq]; exact h1
      · intro c hc hno
        rw [heq]
        exact h3 c (List.mem_cons_of_mem _ hc) hno
    · refine ih _ ?_ hndc.2 ?_ cid
      · intro cid'
        rw [heq]
        show countActive (mkFireAlert now camera (drawConfidence (rng camera.id)) :: st.alerts)
          cid' ≤ 1
        rw [countActive_cons]
        by_cases hcc : (mkFireAlert now camera (drawConfidence (rng camera.id))).cameraId = cid' ∧
            (mkFireAlert now camera (drawConfidence (rng camera.id))).status = AlertStatus.active
        · rw [if_pos hcc]
          have hcid : cid' = camera.id := hcc.1.symm
          rw [hcid]
          rw [h3 camera (List.mem_cons_self _ _) hnoalert]
        · rw [if_neg hcc, Nat.zero_add]
          exact h1 cid'
      · intro c hc hno
        rw [heq]
        show countActive (mkFireAlert now camera (drawConfidence (rng camera.id)) :: st.alerts)
          c.id = 0
        rw [countActive_cons]
        have hne : ¬((mkFireAlert now camera (drawConfidence (rng camera.id))).cameraId = c.id ∧
            (mkFireAlert now camera (drawConfidence (rng camera.id))).status =
              AlertStatus.active) := by
          intro hcc
          apply hndc.1
          rw [show camera.id = c.id from hcc.1]
          exact List.mem_map_of_mem (fun c => c.id) hc
        rw [if_neg hne, Nat.zero_add]
        exact h3 c (List.mem_cons_of_mem _ hc) hno

/-- Every transition preserves the ledger invariant. -/
theorem ledgerInv_step (st : HomeState) (e : Event) (h : LedgerInv st) :
    LedgerInv (step st e) := by
  refine ⟨by rw [camIds_step]; exact h.1, ?_⟩
  cases e with
  | tick => exact h.2
  | fireWindow now rng =>
    intro cid
    show countActive (fireWindowStep now rng st).alerts cid ≤ 1
    unfold fireWindowStep
    split
    · unfold simulationFallbackPass
      exact pass_aux st now rng st.cameras st h.2 h.1
        (fun c _ hno => countActive_eq_zero_of_no_existing st.alerts c.id hno) cid
    · exact h.2 cid
  | probe isHealthy => exact h.2
  | scan outcome =>
    intro cid
    show countActive (performBackendScan st outcome).alerts cid ≤ 1
    rw [performBackendScan_alerts]
    exact h.2 cid
  | openViewer oa outcome =>
    intro cid
    show countActive (handleVideoViewerOpen st oa outcome).alerts cid ≤ 1
    rw [handleVideoViewerOpen_alerts]
    exact h.2 cid
  | resolve alertId =>
    intro cid
    exact Nat.le_trans (countActive_map_resolve_le alertId st.alerts cid) (h.2 cid)
  | request alert =>
    intro cid
    exact Nat.le_trans (countActive_map_resolve_le alert.id st.alerts cid) (h.2 cid)
  | close => exact h.2

/-- The ledger invariant holds after the mount effects. -/
theorem ledgerInv_init : LedgerInv initState :=
  ⟨by decide, fun _ => Nat.zero_le 1⟩

/-- After the mount effects no camera is on fire, so the fire-implies-alert
direction holds vacuously. -/
theorem fireImpliesActive_init : fireImpliesActive initState := by
  intro c hc
  have hc' : c ∈ [cam1, cam2, cam3, cam4, cam5] := hc
  fin_cases hc' <;> (intro hfire; exact absurd hfire (by decide))

end Helpers

section Claims

/-- C1 (counterexample). The claimed biconditional "camera is fire iff an
active alert with its cameraId exists" fails at reachable states in both
directions: applying a backend scan that reports `cam-1` on fire leaves the
ledger empty (fire camera, no alert), and resolving `cam-1`'s alert while
`cam-1` and `cam-4` are both on fire resets `cam-4` to normal while its
alert stays active (active alert, normal camera). -/
theorem camAlertIff_fails_on_reachable_states :
    camAlertIff (run scanFireTrace) = false ∧
      camAlertIff (run resolveBreadthTrace) = false := by
  constructor <;> decide

/-- C1 (amended). On every trace that contains no backend-scan application,
every camera in fire status has a matching active alert in the ledger; the
converse implication (and hence the biconditional) still fails, as the
counterexample shows. -/
theorem scanfree_fire_implies_active (tr : List Event)
    (h : ∀ e ∈ tr, isScanEvent e = false) : fireImpliesActive (run tr) := by
  suffices hgen : ∀ (l : List Event) (st : HomeState), (∀ e ∈ l, isScanEvent e = false) →
      fireImpliesActive st → fireImpliesActive (l.foldl step st) by
    exact hgen tr initState h fireImpliesActive_init
  intro l
  induction l with
  | nil => intro st _ hst; exact hst
  | cons e l ih =>
    intro st hl hst
    rw [List.foldl_cons]
    exact ih _ (fun e' he' => hl e' (List.mem_cons_of_mem _ he'))
      (fireImpliesActive_step st e (hl e (List.mem_cons_self _ _)) hst)

/-- C1 (witness). The amended direction evaluated on a concrete scan-free
trace that ignites `cam-1`. -/
theorem scanfree_fire_implies_active_witness : fireImpliesActive (run fireTrace) :=
  scanfree_fire_implies_active fireTrace (by decide)

/-- C2. `handleResolveAlert` resets every camera currently in fire status —
not only the owner of the resolved alert — to normal with confidence 0, and
marks every ledger entry carrying the given id resolved. -/
theorem resolve_marks_and_resets (st : HomeState) (alertId : String) :
    (∀ c ∈ st.cameras, c.status = CamStatus.fire →
      { c with status := CamStatus.normal, confidence := 0 } ∈
        (handleResolveAlert st alertId).cameras) ∧
    (∀ a ∈ st.alerts, a.id = alertId →
      { a with status := AlertStatus.resolved } ∈ (handleResolveAlert st alertId).alerts) := by
  constructor
  · intro c hc hfire
    exact mem_resolved_cameras st alertId c hc hfire
  · intro a ha hid
    have hm := List.mem_map_of_mem (resolveAlertEntry alertId) ha
    rw [show resolveAlertEntry alertId a = { a with status := AlertStatus.resolved } from by
      unfold resolveAlertEntry; rw [if_pos hid]] at hm
    exact hm

/-- C2 (witness). Resolution evaluated on a concrete state with one fire
camera and its active alert. -/
theorem resolve_marks_and_resets_witness :
    ({ fireCam1 with status := CamStatus.normal, confidence := 0 } ∈
      (handleResolveAlert stW "1cam-1").cameras) ∧
    ({ alertW with status := AlertStatus.resolved } ∈
      (handleResolveAlert stW "1cam-1").alerts) :=
  ⟨(resolve_marks_and_resets stW "1cam-1").1 fireCam1 (by decide) (by decide),
   (resolve_marks_and_resets stW "1cam-1").2 alertW (by decide) (by decide)⟩

/-- C3 (counterexample). The degrade is not one-way as claimed: a health
probe returning false followed by one returning true puts evaluation back on
the service-backed path, and a failed detect call during viewer opening
leaves the service-backed path active as well. -/
theorem probe_recovery_keeps_backend_mode :
    simFallbackActive (run [Event.probe false, Event.probe true]) = false ∧
    simFallbackActive (run [Event.probe true,
      Event.openViewer (some alertW) DetectOutcome.err]) = false := by
  constructor <;> decide

/-- C3 (amended). The one-way degrade-and-stay policy holds only for the
scan path: after any `scanAll` call that fails (or is attempted while the
backend is unreachable), `useBackend` is false and stays false for every
subsequent transition, so evaluation stays in simulation-fallback mode for
the remainder of the session. -/
theorem scan_failure_degrades_permanently (st : HomeState) (tr : List Event) :
    (tr.foldl step (performBackendScan st ScanOutcome.err)).useBackend = false ∧
    simFallbackActive (tr.foldl step (performBackendScan st ScanOutcome.err)) = true := by
  have h0 : (performBackendScan st ScanOutcome.err).useBackend = false := by
    unfold performBackendScan
    split <;> rfl
  have h1 : (tr.foldl step (performBackendScan st ScanOutcome.err)).useBackend = false :=
    foldl_preserve step (fun s => s.useBackend = false)
      (fun b a hb => step_useBackend_false b a hb) tr _ h0
  refine ⟨h1, ?_⟩
  unfold simFallbackActive
  rw [h1]
  exact Bool.or_true _

/-- C4. At most one active alert per camera, over every event trace (the
duplicate guard checks the snapshot ledger before creating, resolution only
retires alerts, and scans never create alerts). -/
theorem at_most_one_active_per_camera (tr : List Event) (cameraId : String) :
    countActive (run tr).alerts cameraId ≤ 1 :=
  (foldl_preserve step LedgerInv (fun b a hb => ledgerInv_step b a hb)
    tr initState ledgerInv_init).2 cameraId

/-- C5. `handleRequestResponse` increments the responses-sent counter by
exactly one, and afterwards every ledger entry bearing the given alert's id
is resolved — also when it already was. -/
theorem request_increments_and_resolves (st : HomeState) (alert : FireAlert) :
    (handleRequestResponse st alert).responsesSent = st.responsesSent + 1 ∧
    ∀ a ∈ (handleRequestResponse st alert).alerts, a.id = alert.id →
      a.status = AlertStatus.resolved := by
  constructor
  · rfl
  · intro a ha hid
    have ha' : a ∈ st.alerts.map (resolveAlertEntry alert.id) := ha
    rcases List.mem_map.mp ha' with ⟨a0, _, haeq⟩
    by_cases h0 : a0.id = alert.id
    · rw [← haeq]
      show (resolveAlertEntry alert.id a0).status = AlertStatus.resolved
      unfold resolveAlertEntry
      rw [if_pos h0]
    · rw [resolveAlertEntry_of_ne alert.id a0 h0] at haeq
      rw [← haeq] at hid
      exact absurd hid h0

/-- C5 (witness). Response dispatch evaluated on the concrete witness state. -/
theorem request_increments_and_resolves_witness :
    (handleRequestResponse stW alertW).responsesSent = stW.responsesSent + 1 ∧
    ({ alertW with status := AlertStatus.resolved } : FireAlert).status =
      AlertStatus.resolved :=
  ⟨(request_increments_and_resolves stW alertW).1,
   (request_increments_and_resolves stW alertW).2
     { alertW with status := AlertStatus.resolved } (by decide) (by decide)⟩

/-- C6. Alert creation is most-recent-first: running the fire-window body
over a registry `[cA, cB]` whose two cameras both fire prepends `cB`'s alert
in front of `cA`'s, yielding order [B, A] ahead of the prior ledger. -/
theorem alerts_most_recent_first (now : Nat) (rng : String → Rat) (st : HomeState)
    (cA cB : SimulatedCamera) (hcams : st.cameras = [cA, cB])
    (hwA : isFireTimeWindow st.simulationTime cA = true)
    (hnA : cA.status = CamStatus.normal)
    (hwB : isFireTimeWindow st.simulationTime cB = true)
    (hnB : cB.status = CamStatus.normal)
    (haA : hasExistingAlert st.alerts cA.id = false)
    (haB : hasExistingAlert st.alerts cB.id = false) :
    (simulationFallbackPass now rng st).alerts =
      mkFireAlert now cB (drawConfidence (rng cB.id)) ::
        mkFireAlert now cA (drawConfidence (rng cA.id)) :: st.alerts := by
  unfold simulationFallbackPass
  rw [hcams, List.foldl_cons, List.foldl_cons, List.foldl_nil,
    passStep_creates st now rng st cA hwA hnA haA,
    passStep_creates st now rng _ cB hwB hnB haB]

/-- C6 (witness). The [B, A] ordering evaluated on the 15000ms/15800ms
double-window scenario at simulation time 15000ms. -/
theorem alerts_most_recent_first_witness :
    (simulationFallbackPass 7 zeroRng stAB).alerts =
      mkFireAlert 7 camB (drawConfidence (zeroRng camB.id)) ::
        mkFireAlert 7 camA (drawConfidence (zeroRng camA.id)) :: stAB.alerts :=
  alerts_most_recent_first 7 zeroRng stAB camA camB rfl (by decide) (by decide)
    (by decide) (by decide) (by decide) (by decide)

/-- C7. A camera absent from a `scanAll` response keeps its exact record
(status and confidence included) when the response is applied. -/
theorem scan_absent_camera_unchanged (st : HomeState) (result : List ScanCamera)
    (i : Nat) (c : SimulatedCamera)
    (hc : st.backendConnected = true)
    (hi : st.cameras[i]? = some c)
    (habs : ∀ r ∈ result, r.camera_id ≠ c.id) :
    (performBackendScan st (ScanOutcome.ok result)).cameras[i]? = some c := by
  have hcond : (!st.backendConnected) = false := by rw [hc]; rfl
  have hfind : result.find? (fun sc => decide (sc.camera_id = c.id)) = none :=
    List.find?_eq_none.mpr (fun r hr => by simpa using habs r hr)
  unfold performBackendScan
  rw [hcond]
  simp only [Bool.false_eq_true, if_false]
  show (applyScanResult result st.cameras)[i]? = some c
  unfold applyScanResult
  rw [List.getElem?_map, hi, Option.map_some']
  rw [hfind]

/-- C7 (witness). The spec scenario: a scan response omitting `cam-3` leaves
`cam-3` exactly unchanged at its registry position. -/
theorem scan_absent_camera_unchanged_witness :
    (performBackendScan stScan
      (ScanOutcome.ok [⟨"cam-1", CamStatus.fire, 1⟩])).cameras[2]? = some cam3 :=
  scan_absent_camera_unchanged stScan [⟨"cam-1", CamStatus.fire, 1⟩] 2 cam3
    rfl (by decide) (by decide)

/-- C8. Resolution is a per-entry status mutation: the ledger keeps its
length (nothing is deleted), entries with a different id — and entries
already resolved — survive unchanged, and when no entry with the id is
active (absent id or already resolved) the whole ledger is unchanged. -/
theorem resolve_ledger_noop_shape (st : HomeState) (alertId : String) :
    (handleResolveAlert st alertId).alerts.length = st.alerts.length ∧
    (∀ a ∈ st.alerts, a.id ≠ alertId → a ∈ (handleResolveAlert st alertId).alerts) ∧
    (∀ a ∈ st.alerts, a.status = AlertStatus.resolved →
      a ∈ (handleResolveAlert st alertId).alerts) ∧
    ((∀ a ∈ st.alerts, a.id = alertId → a.status = AlertStatus.resolved) →
      (handleResolveAlert st alertId).alerts = st.alerts) := by
  refine ⟨?_, ?_, ?_, ?_⟩
  · show (st.alerts.map (resolveAlertEntry alertId)).length = st.alerts.length
    exact List.length_map _ _
  · intro a ha hne
    have hm := List.mem_map_of_mem (resolveAlertEntry alertId) ha
    rw [resolveAlertEntry_of_ne alertId a hne] at hm
    exact hm
  · intro a ha hres
    have hm := List.mem_map_of_mem (resolveAlertEntry alertId) ha
    rw [resolveAlertEntry_of_resolved alertId a hres] at hm
    exact hm
  · intro hall
    show st.alerts.map (resolveAlertEntry alertId) = st.alerts
    have hfix : ∀ a ∈ st.alerts, resolveAlertEntry alertId a = a := by
      intro a ha
      by_cases hid : a.id = alertId
      · exact resolveAlertEntry_of_resolved alertId a (hall a ha hid)
      · exact resolveAlertEntry_of_ne alertId a hid
    rw [List.map_congr_left hfix]
    exact List.map_id _

/-- C8 (witness). Resolving an id absent from the ledger evaluated on the
concrete witness state: same length, entry untouched, ledger unchanged. -/
theorem resolve_ledger_noop_shape_witness :
    (handleResolveAlert stW "nope").alerts.length = stW.alerts.length ∧
    alertW ∈ (handleResolveAlert stW "nope").alerts ∧
    (handleResolveAlert stW "nope").alerts = stW.alerts :=
  ⟨(resolve_ledger_noop_shape stW "nope").1,
   (resolve_ledger_noop_shape stW "nope").2.1 alertW (by decide) (by decide),
   (resolve_ledger_noop_shape stW "nope").2.2.2 (by decide)⟩

/-- C9. Alert ids are the wall-clock string concatenated with the camera
id, so two alerts created in the same tick for different cameras always get
distinct ids. -/
theorem same_tick_alert_ids_distinct (now : Nat) (cA cB : SimulatedCamera)
    (confA confB : Rat) (h : cA.id ≠ cB.id) :
    (mkFireAlert now cA confA).id ≠ (mkFireAlert now cB confB).id := by
  intro heq
  apply h
  have heq' : toString now ++ cA.id = toString now ++ cB.id := heq
  have hd := congrArg String.data heq'
  rw [String.data_append, String.data_append] at hd
  exact String.ext (List.append_cancel_left hd)

/-- C9 (witness). Same-tick ids for `cam-1` and `cam-2` are distinct. -/
theorem same_tick_alert_ids_distinct_witness :
    (mkFireAlert 5 cam1 1).id ≠ (mkFireAlert 5 cam2 1).id :=
  same_tick_alert_ids_distinct 5 cam1 cam2 1 1 (by decide)

/-- C10. Whatever id is passed — matching an alert or not —
`handleResolveAlert` clears the selected alert, leaves every camera normal,
and resets each previously burning camera to normal with confidence 0. -/
theorem resolve_always_clears (st : HomeState) (alertId : String) :
    (handleResolveAlert st alertId).selectedAlert = none ∧
    (∀ c ∈ (handleResolveAlert st alertId).cameras, c.status = CamStatus.normal) ∧
    (∀ c ∈ st.cameras, c.status = CamStatus.fire →
      { c with status := CamStatus.normal, confidence := 0 } ∈
        (handleResolveAlert st alertId).cameras) := by
  refine ⟨rfl, ?_, fun c hc hf => mem_resolved_cameras st alertId c hc hf⟩
  intro c hc
  have hc' : c ∈ st.cameras.map resolveCameraEntry := hc
  rcases List.mem_map.mp hc' with ⟨c0, _, hceq⟩
  rw [← hceq]
  exact resolveCameraEntry_status c0

/-- C10 (witness). Resolving a nonexistent id on the concrete witness state
still clears the viewer and resets the burning camera. -/
theorem resolve_always_clears_witness :
    (handleResolveAlert stW "nope").selectedAlert = none ∧
    ({ fireCam1 with status := CamStatus.normal, confidence := 0 } ∈
      (handleResolveAlert stW "nope").cameras) :=
  ⟨(resolve_always_clears stW "nope").1,
   (resolve_always_clears stW "nope").2.2 fireCam1 (by decide) (by decide)⟩

end Claims

end FireWatch
